import Mathlib

/-!
Verification development for the subscription-tracker repository's AI
provider abstraction and tool-calling orchestration layer.

The Python source (app/ai_providers.py, app/web_tools.py, app/ai_services.py)
is shallowly embedded: vendor HTTP calls become explicit environment
functions or outcome values, Python exceptions become `Except` errors,
Python `None` becomes `Option`, dicts become association lists or
structures, and wall-clock time is threaded explicitly as rational numbers.
-/

namespace SubTracker

/-- Whether the first character list is a prefix of the second. -/
def hasPrefixChars : List Char → List Char → Bool
  | [], _ => true
  | _ :: _, [] => false
  | c :: cs, d :: ds => c == d && hasPrefixChars cs ds

/-- Whether `pat` occurs contiguously inside the second character list. -/
def hasSubChars (pat : List Char) : List Char → Bool
  | [] => pat.isEmpty
  | d :: ds => hasPrefixChars pat (d :: ds) || hasSubChars pat ds

/-- Substring containment, modelling Python's `pat in s`. -/
def strContains (s pat : String) : Bool :=
  hasSubChars pat.toList s.toList

/-- Python `str.lower()`. -/
def strLower (s : String) : String :=
  String.mk (s.toList.map Char.toLower)

/-- Python `str.capitalize()`: first character uppercased, the rest lowercased. -/
def pyCapitalize (s : String) : String :=
  match s.toList with
  | [] => ""
  | c :: rest => String.mk (c.toUpper :: rest.map Char.toLower)

/-- Python `l[-n:]`: the last `n` elements of a list. -/
def pyLastN (n : Nat) (l : List α) : List α :=
  l.drop (l.length - n)

/-- Minimal model of Python/JSON values appearing in tool inputs and results. -/
inductive PyVal where
  | str (s : String)
  | int (n : Int)
  | bool (b : Bool)
  | list (items : List PyVal)
  | dict (fields : List (String × PyVal))

/-- A decoded tool-arguments dict (`tool_input` in the source). -/
def ToolInput := List (String × PyVal)

/-- Dict lookup, modelling Python `d[k]` / `d.get(k)`. -/
def lookupKey (k : String) : List (String × PyVal) → Option PyVal
  | [] => none
  | (k', v) :: rest => if k' = k then some v else lookupKey k rest

/- ===================== RateLimiter (web_tools.py) ===================== -/

/-- `[t for t in self.calls if now - t < 60]` in `RateLimiter.wait_if_needed`. -/
def recentCalls (now : ℚ) (calls : List ℚ) : List ℚ :=
  calls.filter (fun t => decide (now - t < 60))

/-- Number of recorded timestamps inside the 60-second window trailing `now`. -/
def countWindow (now : ℚ) (calls : List ℚ) : Nat :=
  (recentCalls now calls).length

/-- `RateLimiter.wait_if_needed` from web_tools.py, called at wall-clock time
`now` on recorded timestamps `calls`. Returns the new timestamp list and the
wall-clock time at which the method returns (after any `time.sleep`), or
`none` for the `IndexError` Python would raise on `self.calls[0]` when the
filtered list is empty while `len >= max_calls` (only possible with
`max_calls = 0`). -/
def waitIfNeeded (maxCalls : Nat) (now : ℚ) (calls : List ℚ) :
    Option (List ℚ × ℚ) :=
  let kept := recentCalls now calls
  if maxCalls ≤ kept.length then
    match kept with
    | [] => none
    | c0 :: _ =>
      let sleepTime := 60 - (now - c0)
      let exitTime := if 0 < sleepTime then now + sleepTime else now
      some (kept ++ [now], exitTime)
  else
    some (kept ++ [now], now)

/-- Reachable states of a `RateLimiter` with limit `maxCalls`: the recorded
timestamp list together with the wall-clock time at which the last
`wait_if_needed` call returned. Successive calls happen at non-decreasing
wall-clock times (each entry time is at least the previous exit time). -/
inductive RLReach (maxCalls : Nat) : List ℚ → ℚ → Prop where
  | init (t : ℚ) : RLReach maxCalls [] t
  | step {calls : List ℚ} {exit : ℚ} (now : ℚ) (hnow : exit ≤ now)
      (h : RLReach maxCalls calls exit)
      {calls' : List ℚ} {exit' : ℚ}
      (hw : waitIfNeeded maxCalls now calls = some (calls', exit')) :
      RLReach maxCalls calls' exit'

lemma recentCalls_append (now : ℚ) (a b : List ℚ) :
    recentCalls now (a ++ b) = recentCalls now a ++ recentCalls now b := by
  simp [recentCalls, List.filter_append]

lemma length_recentCalls_le (now : ℚ) (l : List ℚ) :
    (recentCalls now l).length ≤ l.length :=
  List.length_filter_le _ l

lemma mem_recentCalls {now t : ℚ} {l : List ℚ} (h : t ∈ recentCalls now l) :
    t ∈ l ∧ now - t < 60 := by
  have := List.mem_filter.mp h
  exact ⟨this.1, by simpa using this.2⟩

lemma recentCalls_idem (now : ℚ) (l : List ℚ) :
    recentCalls now (recentCalls now l) = recentCalls now l := by
  simp [recentCalls, List.filter_filter]

/-- Core invariant, proved by induction on reachability: every recorded
timestamp is at most the limiter's current wall-clock time, and every
60-second window trailing any time at or after the current wall-clock time
holds at most `maxCalls` recorded timestamps. -/
lemma rlReach_invariant {maxCalls : Nat} {calls : List ℚ} {exit : ℚ}
    (h : RLReach maxCalls calls exit) :
    (∀ t ∈ calls, t ≤ exit) ∧ (∀ T, exit ≤ T → countWindow T calls ≤ maxCalls) := by
  induction h with
  | init t => exact ⟨by simp, by simp [countWindow, recentCalls]⟩
  | step now hnow h hw ih =>
    rename_i calls exit calls' exit'
    obtain ⟨ihLe, ihCount⟩ := ih
    -- every element of the filtered list is an old timestamp, hence ≤ now
    have hkeptLe : ∀ t ∈ recentCalls now calls, t ≤ now := fun t ht =>
      le_trans (ihLe t (mem_recentCalls ht).1) hnow
    -- the filtered list is exactly the trailing window at time `now`
    have hkeptLen : (recentCalls now calls).length ≤ maxCalls := ihCount now hnow
    unfold waitIfNeeded at hw
    by_cases hfull : maxCalls ≤ (recentCalls now calls).length
    · -- the limiter is at capacity: it sleeps until the oldest call expires
      simp only [hfull, if_true] at hw
      rcases hkept : recentCalls now calls with _ | ⟨c0, rest⟩
      · rw [hkept] at hw; simp at hw
      · rw [hkept] at hw
        have hc0 : now - c0 < 60 := (mem_recentCalls (hkept ▸ List.mem_cons_self c0 rest)).2
        have hsleep : (0:ℚ) < 60 - (now - c0) := by linarith
        simp only [hsleep, if_true] at hw
        obtain ⟨hcalls', hexit'⟩ := Prod.mk.injEq .. ▸ Option.some.injEq .. ▸ hw
        have hexit'' : exit' = c0 + 60 := by rw [← hexit']; ring
        constructor
        · intro t ht
          rw [← hcalls'] at ht
          rcases List.mem_append.mp ht with hmem | hmem
          · have := hkeptLe t (hkept ▸ hmem)
            linarith
          · simp at hmem; subst hmem; linarith
        · intro T hT
          rw [← hcalls']
          have hTc0 : ¬ (T - c0 < 60) := by rw [hexit''] at hT; linarith
          have hlen : maxCalls = rest.length + 1 := by
            have : (recentCalls now calls).length = rest.length + 1 := by
              rw [hkept]; simp
            omega
          calc countWindow T (c0 :: (rest ++ [now]))
              = countWindow T (rest ++ [now]) := by
                simp [countWindow, recentCalls, List.filter_cons, hTc0]
            _ = (recentCalls T rest).length + (recentCalls T [now]).length := by
                simp [countWindow, recentCalls_append]
            _ ≤ rest.length + 1 := by
                have h1 := length_recentCalls_le T rest
                have h2 := length_recentCalls_le T [now]
                simp at h2
                omega
            _ = maxCalls := hlen.symm
    · -- still under capacity: no sleep, the new timestamp at most fills the window
      simp only [hfull, if_false] at hw
      obtain ⟨hcalls', hexit'⟩ := Prod.mk.injEq .. ▸ Option.some.injEq .. ▸ hw
      constructor
      · intro t ht
        rw [← hcalls'] at ht
        rcases List.mem_append.mp ht with hmem | hmem
        · exact hexit' ▸ hkeptLe t hmem
        · simp at hmem; subst hmem; exact le_of_eq hexit'
      · intro T hT
        rw [← hcalls']
        calc countWindow T (recentCalls now calls ++ [now])
            = (recentCalls T (recentCalls now calls)).length + (recentCalls T [now]).length := by
              simp [countWindow, recentCalls_append]
          _ ≤ (recentCalls now calls).length + 1 := by
              have h1 := length_recentCalls_le T (recentCalls now calls)
              have h2 := length_recentCalls_le T [now]
              simp at h2
              omega
          _ ≤ maxCalls := by omega

/-- Claim C3: in any reachable `RateLimiter` state, the recorded timestamps
inside every trailing 60-second window (a window ending at the current
wall-clock time or later, in particular at the entry time of any subsequent
call) never number more than `max_calls_per_minute`; and a call that finds
the window full blocks — `wait_if_needed` returns at a wall-clock time
strictly after its entry time, with the entry timestamp appended to the
record rather than dropped. -/
theorem rateLimiter_window_bounded_and_blocks
    (maxCalls : Nat) (calls : List ℚ) (exit : ℚ)
    (h : RLReach maxCalls calls exit) :
    (∀ T, exit ≤ T → countWindow T calls ≤ maxCalls) ∧
    (∀ now, exit ≤ now → 0 < maxCalls → maxCalls ≤ countWindow now calls →
      ∃ calls' exit', waitIfNeeded maxCalls now calls = some (calls', exit') ∧
        now < exit' ∧ calls' = recentCalls now calls ++ [now]) := by
  refine ⟨(rlReach_invariant h).2, ?_⟩
  intro now hnow hpos hfull
  unfold waitIfNeeded
  have hfull' : maxCalls ≤ (recentCalls now calls).length := hfull
  simp only [hfull', if_true]
  rcases hkept : recentCalls now calls with _ | ⟨c0, rest⟩
  · rw [hkept] at hfull'; simp at hfull'; omega
  · have hc0 : now - c0 < 60 := (mem_recentCalls (hkept ▸ List.mem_cons_self c0 rest)).2
    have hsleep : (0:ℚ) < 60 - (now - c0) := by linarith
    simp only [hsleep, if_true]
    exact ⟨_, _, rfl, by linarith, rfl⟩

/-- Concrete two-call trace of a limiter with `max_calls_per_minute = 2`:
calls entering at times 0 and 1 are both admitted without sleeping. -/
lemma rlReach_example : RLReach 2 [0, 1] 1 := by
  have h1 : RLReach 2 [0] 0 :=
    RLReach.init 0 |>.step 0 le_rfl (by norm_num [waitIfNeeded, recentCalls])
  exact h1.step 1 (by norm_num) (by norm_num [waitIfNeeded, recentCalls])

theorem rateLimiter_window_bounded_and_blocks_witness :
    countWindow 30 [0, 1] ≤ 2 ∧
    ∃ calls' exit', waitIfNeeded 2 1 [0, 1] = some (calls', exit') ∧
      (1:ℚ) < exit' ∧ calls' = recentCalls 1 [0, 1] ++ [1] := by
  have H := rateLimiter_window_bounded_and_blocks 2 [0, 1] 1 rlReach_example
  exact ⟨H.1 30 (by norm_num), H.2 1 le_rfl (by norm_num)
    (by norm_num [countWindow, recentCalls])⟩

/- ===================== AI providers (ai_providers.py) ===================== -/

/-- Python exception message. -/
def Err := String

/-- A canonical tool definition (name, description, input schema) as stored
in `TOOL_DEFINITIONS` and handed to the vendor APIs. -/
structure ToolDef where
  name : String
  description : String
  inputSchema : PyVal

/-- The slice of a `ToolExecutor.execute_tool` result dict the providers
consume: `success` together with `json.dumps(result)` on success and the
`error` string on failure. -/
inductive ExecOutcome where
  | success (resultJson : String)
  | failure (error : String)

/-- The bound tool executor as seen by a provider: `execute_tool` never
raises, so it is a total function from tool name and input to an outcome. -/
def ExecFn := String → ToolInput → ExecOutcome

/-- `json.dumps({"error": execution_result['error']})` used by all three
providers to serialize a failed tool result. -/
def dumpsError (e : String) : String :=
  "\x7b\"error\": \"" ++ e ++ "\"\x7d"

/-- The `{success, message, provider}` dict every `test_connection` returns. -/
structure Probe where
  success : Bool
  message : String
  provider : String

/-- Python truthiness of the optional `tools` argument: `None` and the empty
list are both falsy in `if not tools`. -/
def pyTruthyTools : Option (List ToolDef) → Bool
  | none => false
  | some [] => false
  | some (_ :: _) => true

/-- Python truthiness of an optional context string: `None` and `""` are
falsy. -/
def pyTruthyCtx : Option String → Bool
  | none => false
  | some c => !c.isEmpty

/- ---------- ClaudeProvider ---------- -/

/-- Outcome of `anthropic` API calls made by `ClaudeProvider.test_connection`,
classified by the exception types the source catches. -/
inductive ClaudeConnOutcome where
  | ok
  | authError
  | permissionDenied
  | rateLimited
  | otherExn (msg : String)

/-- `ClaudeProvider.test_connection`. -/
def claudeTestConnection : ClaudeConnOutcome → Probe
  | .ok => ⟨true, "Successfully connected to Claude API", "Claude"⟩
  | .authError => ⟨false, "Invalid API key. Please check your Anthropic API key.", "Claude"⟩
  | .permissionDenied => ⟨false, "Permission denied. Check your API key permissions.", "Claude"⟩
  | .rateLimited => ⟨false, "Rate limit exceeded. Please try again later.", "Claude"⟩
  | .otherExn m => ⟨false, "Connection failed: " ++ m, "Claude"⟩

/-- Outcome of `self.client.messages.create` inside
`ClaudeProvider.generate_response`; `ok` carries `message.content[0].text`. -/
inductive ClaudeGenOutcome where
  | ok (text : String)
  | authError
  | rateLimited
  | otherExn (msg : String)

/-- `full_prompt = f"{context}\n\n{prompt}" if context else prompt`. -/
def claudeFullPrompt (prompt : String) (context : Option String) : String :=
  if pyTruthyCtx context then context.getD "" ++ "\n\n" ++ prompt else prompt

/-- `ClaudeProvider.generate_response`, with the vendor round-trip abstracted
as a function from the full prompt to an outcome; exceptions are re-labelled
exactly as in the source. -/
def claudeGenerateResponse (env : String → ClaudeGenOutcome)
    (prompt : String) (context : Option String) : Except Err String :=
  match env (claudeFullPrompt prompt context) with
  | .ok t => .ok t
  | .authError => .error "AI authentication failed. Please check API key in admin settings."
  | .rateLimited => .error "AI rate limit reached. Please try again later."
  | .otherExn m => .error ("AI service error: " ++ m)

/-- A `tool_result` content block sent back to Claude. -/
structure CToolResult where
  toolUseId : String
  content : String
  isError : Bool

/-- A content block of a Claude response: a `tool_use` request or a text
block (`hasattr(content_block, 'text')`). -/
inductive CBlock where
  | toolUse (name : String) (input : ToolInput) (id : String)
  | textBlock (s : String)

/-- Content of one message in the Claude conversation. -/
inductive CContent where
  | text (s : String)
  | blocks (bs : List CBlock)
  | toolResults (rs : List CToolResult)

/-- One Claude conversation message. -/
structure CMsg where
  role : String
  content : CContent

/-- A Claude response: `stop_reason` plus content blocks. -/
structure ClaudeResp where
  stopReason : String
  content : List CBlock

/-- A `messages.create` request in the tool path: system context, the
conversation so far, and the tool catalog. -/
structure ClaudeToolRequest where
  system : String
  messages : List CMsg
  tools : List ToolDef

/-- The Claude vendor in the tool path: each request yields a response or
raises. -/
def ClaudeToolEnv := ClaudeToolRequest → Except Err ClaudeResp

/-- `context or "You are a helpful subscription management assistant."`. -/
def claudeSystemContext (context : Option String) : String :=
  if pyTruthyCtx context then context.getD ""
  else "You are a helpful subscription management assistant."

/-- The `tool_results` list built for one assistant turn: every `tool_use`
block is executed and serialized, failures tagged `is_error`. -/
def claudeToolResults (ex : ExecFn) : List CBlock → List CToolResult
  | [] => []
  | .toolUse name input id :: rest =>
    (match ex name input with
     | .success r => ⟨id, r, false⟩
     | .failure e => ⟨id, dumpsError e, true⟩) :: claudeToolResults ex rest
  | .textBlock _ :: rest => claudeToolResults ex rest

/-- Final text extraction: the first block with a `text` attribute, or the
fixed `"No response generated"` placeholder. -/
def claudeFinalText : List CBlock → String
  | [] => "No response generated"
  | .textBlock s :: _ => s
  | .toolUse _ _ _ :: rest => claudeFinalText rest

/-- The `while response.stop_reason == "tool_use"` loop of
`ClaudeProvider.generate_response_with_tools`. `fuel` bounds the number of
further vendor round-trips modelled; `none` means the script ran out of fuel
(the source loop is unbounded). -/
def claudeToolLoop (env : ClaudeToolEnv) (ex : ExecFn) (system : String)
    (tools : List ToolDef) : Nat → List CMsg → ClaudeResp → Option (Except Err String)
  | fuel, msgs, resp =>
    if resp.stopReason = "tool_use" then
      match fuel with
      | 0 => none
      | fuel' + 1 =>
        let results := claudeToolResults ex resp.content
        let msgs' := msgs ++ [⟨"assistant", .blocks resp.content⟩, ⟨"user", .toolResults results⟩]
        match env ⟨system, msgs', tools⟩ with
        | .error e => some (.error e)
        | .ok resp' => claudeToolLoop env ex system tools fuel' msgs' resp'
    else
      some (.ok (claudeFinalText resp.content))

/-- The body of the `try:` block of
`ClaudeProvider.generate_response_with_tools`: initial request, then the
tool loop. `some (.error e)` is an exception escaping the block. -/
def claudeToolTry (env : ClaudeToolEnv) (ex : ExecFn) (fuel : Nat)
    (prompt : String) (context : Option String) (tools : List ToolDef) :
    Option (Except Err String) :=
  let msgs : List CMsg := [⟨"user", .text prompt⟩]
  match env ⟨claudeSystemContext context, msgs, tools⟩ with
  | .error e => some (.error e)
  | .ok resp => claudeToolLoop env ex (claudeSystemContext context) tools fuel msgs resp

/-- `ClaudeProvider.generate_response_with_tools`: degrade to plain
generation when `tools` or `tool_executor` is falsy, otherwise run the tool
loop and fall back to plain generation on any exception. -/
def claudeGenerateResponseWithTools (envPlain : String → ClaudeGenOutcome)
    (envTool : ClaudeToolEnv) (fuel : Nat) (prompt : String)
    (context : Option String) (tools : Option (List ToolDef))
    (toolExecutor : Option ExecFn) : Option (Except Err String) :=
  match pyTruthyTools tools, toolExecutor with
  | true, some ex =>
    match claudeToolTry envTool ex fuel prompt context (tools.getD []) with
    | none => none
    | some (.ok s) => some (.ok s)
    | some (.error _) => some (claudeGenerateResponse envPlain prompt context)
  | _, _ => some (claudeGenerateResponse envPlain prompt context)

/- ---------- OpenAIProvider ---------- -/

/-- `tool_call.function` of an OpenAI tool call: name plus the raw JSON
`arguments` string. -/
structure OAIFunction where
  name : String
  arguments : String

/-- One OpenAI tool call (with its correlation id). -/
structure OAIToolCall where
  id : String
  function : OAIFunction

/-- The assistant message of an OpenAI response: `content` may be null. -/
structure OAIMessage where
  content : Option String
  toolCalls : List OAIToolCall

/-- `response.choices[0]` of an OpenAI chat completion. -/
structure OAIResp where
  finishReason : String
  message : OAIMessage

/-- One entry of the `messages` list sent to OpenAI. -/
inductive OMsg where
  | system (content : String)
  | user (content : String)
  | assistant (m : OAIMessage)
  | tool (toolCallId : String) (content : String)

/-- Outcome of `self.client.chat.completions.create` in
`OpenAIProvider.generate_response`: the (possibly null) message content, or
an exception with message text. -/
inductive OAIGenOutcome where
  | ok (content : Option String)
  | exn (msg : String)

/-- The `messages` list built by `OpenAIProvider.generate_response` (and
identically at the start of its tool path): optional system message, then
the user prompt. -/
def openaiMessages (prompt : String) (context : Option String) : List OMsg :=
  (if pyTruthyCtx context then [OMsg.system (context.getD "")] else []) ++ [OMsg.user prompt]

/-- `OpenAIProvider.generate_response`: exception text is classified by
lower-cased substring matching exactly as in the source. -/
def openaiGenerateResponse (env : List OMsg → OAIGenOutcome)
    (prompt : String) (context : Option String) : Except Err (Option String) :=
  match env (openaiMessages prompt context) with
  | .ok c => .ok c
  | .exn msg =>
    if strContains (strLower msg) "authentication" || strContains (strLower msg) "api_key" then
      .error "AI authentication failed. Please check API key in admin settings."
    else if strContains (strLower msg) "rate" || strContains (strLower msg) "limit" then
      .error "AI rate limit reached. Please try again later."
    else
      .error ("AI service error: " ++ msg)

/-- An OpenAI chat completion request in the tool path. -/
structure OAIToolRequest where
  messages : List OMsg
  tools : List ToolDef

/-- The OpenAI vendor in the tool path. -/
def OAIToolEnv := OAIToolRequest → Except Err OAIResp

/-- The tool-result messages built for one assistant turn:
`json.loads(tool_call.function.arguments)` may raise (`jsonLoads` returns
`Except`), which escapes the loop. -/
def openaiToolMessages (jsonLoads : String → Except Err ToolInput) (ex : ExecFn) :
    List OAIToolCall → Except Err (List OMsg)
  | [] => .ok []
  | tc :: rest =>
    match jsonLoads tc.function.arguments with
    | .error e => .error e
    | .ok input =>
      let content := match ex tc.function.name input with
        | .success r => r
        | .failure e => dumpsError e
      match openaiToolMessages jsonLoads ex rest with
      | .error e => .error e
      | .ok tail => .ok (OMsg.tool tc.id content :: tail)

/-- The `while response.choices[0].finish_reason == "tool_calls"` loop of
`OpenAIProvider.generate_response_with_tools`. The final answer is
`response.choices[0].message.content`, returned as-is (it may be null). -/
def openaiToolLoop (env : OAIToolEnv) (jsonLoads : String → Except Err ToolInput)
    (ex : ExecFn) (tools : List ToolDef) :
    Nat → List OMsg → OAIResp → Option (Except Err (Option String))
  | fuel, msgs, resp =>
    if resp.finishReason = "tool_calls" then
      match fuel with
      | 0 => none
      | fuel' + 1 =>
        let msgs₁ := msgs ++ [OMsg.assistant resp.message]
        match openaiToolMessages jsonLoads ex resp.message.toolCalls with
        | .error e => some (.error e)
        | .ok toolMsgs =>
          let msgs₂ := msgs₁ ++ toolMsgs
          match env ⟨msgs₂, tools⟩ with
          | .error e => some (.error e)
          | .ok resp' => openaiToolLoop env jsonLoads ex tools fuel' msgs₂ resp'
    else
      some (.ok resp.message.content)

/-- The body of the `try:` block of
`OpenAIProvider.generate_response_with_tools`. -/
def openaiToolTry (env : OAIToolEnv) (jsonLoads : String → Except Err ToolInput)
    (ex : ExecFn) (fuel : Nat) (prompt : String) (context : Option String)
    (tools : List ToolDef) : Option (Except Err (Option String)) :=
  let msgs := openaiMessages prompt context
  match env ⟨msgs, tools⟩ with
  | .error e => some (.error e)
  | .ok resp => openaiToolLoop env jsonLoads ex tools fuel msgs resp

/-- `OpenAIProvider.generate_response_with_tools`. -/
def openaiGenerateResponseWithTools (envPlain : List OMsg → OAIGenOutcome)
    (envTool : OAIToolEnv) (jsonLoads : String → Except Err ToolInput)
    (fuel : Nat) (prompt : String) (context : Option String)
    (tools : Option (List ToolDef)) (toolExecutor : Option ExecFn) :
    Option (Except Err (Option String)) :=
  match pyTruthyTools tools, toolExecutor with
  | true, some ex =>
    match openaiToolTry envTool jsonLoads ex fuel prompt context (tools.getD []) with
    | none => none
    | some (.ok s) => some (.ok s)
    | some (.error _) => some (openaiGenerateResponse envPlain prompt context)
  | _, _ => some (openaiGenerateResponse envPlain prompt context)

/- ---------- OllamaProvider ---------- -/

/-- Outcome of the `requests.post` probe in `OllamaProvider.test_connection`:
an HTTP status code, or one of the exceptions the source catches. -/
inductive OllamaConnOutcome where
  | status (code : Nat)
  | connError
  | timeout
  | otherExn (msg : String)

/-- `OllamaProvider.test_connection` for a provider configured with
`server_url` and `model`. -/
def ollamaTestConnection (serverUrl model : String) : OllamaConnOutcome → Probe
  | .status code =>
    if code = 200 then
      ⟨true, "Successfully connected to Ollama server at " ++ serverUrl, "Ollama"⟩
    else if code = 404 then
      ⟨false, "Model '" ++ model ++ "' not found. Please pull the model first: ollama pull "
        ++ model, "Ollama"⟩
    else
      ⟨false, "Server returned status code " ++ toString code, "Ollama"⟩
  | .connError =>
    ⟨false, "Cannot connect to Ollama server at " ++ serverUrl ++ ". Is Ollama running?",
      "Ollama"⟩
  | .timeout => ⟨false, "Connection timeout. Ollama server is not responding.", "Ollama"⟩
  | .otherExn m => ⟨false, "Connection failed: " ++ m, "Ollama"⟩

/-- The JSON body `OllamaProvider.generate_response` posts to
`/api/generate`: it has `model`, `prompt` and `stream` keys and nothing
else — in particular no messages list and no system role. -/
structure OllamaGenRequest where
  model : String
  prompt : String
  stream : Bool

/-- The request built by `OllamaProvider.generate_response`: the context is
concatenated into the prompt text, exactly like the Claude provider. -/
def ollamaGenerateRequest (model prompt : String) (context : Option String) :
    OllamaGenRequest :=
  ⟨model, claudeFullPrompt prompt context, false⟩

/-- Outcome of the `/api/generate` round-trip: the parsed body's optional
`response` field, or one of the exceptions the source catches
(`raise_for_status` failures land in `otherExn`). -/
inductive OllamaGenOutcome where
  | ok (responseField : Option String)
  | connError
  | timeout
  | otherExn (msg : String)

/-- `OllamaProvider.generate_response`. -/
def ollamaGenerateResponse (env : OllamaGenRequest → OllamaGenOutcome)
    (model prompt : String) (context : Option String) : Except Err String :=
  match env (ollamaGenerateRequest model prompt context) with
  | .ok r => .ok (r.getD "")
  | .connError => .error "Cannot connect to Ollama server. Please check if Ollama is running."
  | .timeout => .error "Ollama request timed out. The model may be taking too long to respond."
  | .otherExn m => .error ("Ollama service error: " ++ m)

/-- One Ollama tool call: `tool_call['function']` carries the name and an
already-decoded arguments dict (no JSON decoding step, unlike OpenAI). -/
structure OllamaToolCall where
  name : String
  arguments : ToolInput

/-- The `message` dict of an `/api/chat` response; `content` and
`tool_calls` may each be absent. -/
structure OllamaMsgData where
  content : Option String
  toolCalls : List OllamaToolCall

/-- An `/api/chat` response body; the `message` key may be absent. -/
structure OllamaChatResp where
  message : Option OllamaMsgData

/-- One entry of the `messages` list sent to `/api/chat`; tool results carry
no correlation id. -/
inductive OllamaMsg where
  | system (content : String)
  | user (content : String)
  | assistant (m : OllamaMsgData)
  | tool (content : String)

/-- An `/api/chat` request. -/
structure OllamaChatRequest where
  model : String
  messages : List OllamaMsg
  tools : List ToolDef
  stream : Bool

/-- The Ollama vendor in the tool path; `.error` covers connection errors,
timeouts and `raise_for_status` failures alike (all are caught by the same
`except`). -/
def OllamaChatEnv := OllamaChatRequest → Except Err OllamaChatResp

/-- Initial `messages` list of the Ollama tool path (dedicated system
message when the context is truthy). -/
def ollamaChatMessages (prompt : String) (context : Option String) : List OllamaMsg :=
  (if pyTruthyCtx context then [OllamaMsg.system (context.getD "")] else [])
    ++ [OllamaMsg.user prompt]

/-- Tool-result messages for one assistant turn, appended in call order. -/
def ollamaToolMessages (ex : ExecFn) : List OllamaToolCall → List OllamaMsg
  | [] => []
  | tc :: rest =>
    (match ex tc.name tc.arguments with
     | .success r => OllamaMsg.tool r
     | .failure e => OllamaMsg.tool (dumpsError e)) :: ollamaToolMessages ex rest

/-- The `while result.get('message', {}).get('tool_calls')` loop of
`OllamaProvider.generate_response_with_tools`; the final answer is
`result.get('message', {}).get('content', '')`. -/
def ollamaToolLoop (env : OllamaChatEnv) (ex : ExecFn) (model : String)
    (tools : List ToolDef) : Nat → List OllamaMsg → OllamaChatResp →
    Option (Except Err String)
  | fuel, msgs, resp =>
    match resp.message with
    | none => some (.ok "")
    | some m =>
      if m.toolCalls.isEmpty then
        some (.ok (m.content.getD ""))
      else
        match fuel with
        | 0 => none
        | fuel' + 1 =>
          let msgs' := msgs ++ [OllamaMsg.assistant m] ++ ollamaToolMessages ex m.toolCalls
          match env ⟨model, msgs', tools, false⟩ with
          | .error e => some (.error e)
          | .ok resp' => ollamaToolLoop env ex model tools fuel' msgs' resp'

/-- The body of the `try:` block of
`OllamaProvider.generate_response_with_tools`. -/
def ollamaToolTry (env : OllamaChatEnv) (ex : ExecFn) (fuel : Nat)
    (model prompt : String) (context : Option String) (tools : List ToolDef) :
    Option (Except Err String) :=
  let msgs := ollamaChatMessages prompt context
  match env ⟨model, msgs, tools, false⟩ with
  | .error e => some (.error e)
  | .ok resp => ollamaToolLoop env ex model tools fuel msgs resp

/-- `OllamaProvider.generate_response_with_tools`. -/
def ollamaGenerateResponseWithTools (envPlain : OllamaGenRequest → OllamaGenOutcome)
    (envTool : OllamaChatEnv) (fuel : Nat) (model prompt : String)
    (context : Option String) (tools : Option (List ToolDef))
    (toolExecutor : Option ExecFn) : Option (Except Err String) :=
  match pyTruthyTools tools, toolExecutor with
  | true, some ex =>
    match ollamaToolTry envTool ex fuel model prompt context (tools.getD []) with
    | none => none
    | some (.ok s) => some (.ok s)
    | some (.error _) => some (ollamaGenerateResponse envPlain model prompt context)
  | _, _ => some (ollamaGenerateResponse envPlain model prompt context)

/-- `OpenAIProvider.test_connection`: classification of exception text by
lower-cased substring matching, exactly as the source does. -/
def openaiTestConnection : OAIGenOutcome → Probe
  | .ok _ => ⟨true, "Successfully connected to OpenAI API", "OpenAI"⟩
  | .exn msg =>
    if strContains (strLower msg) "authentication" || strContains (strLower msg) "api_key" then
      ⟨false, "Invalid API key. Please check your OpenAI API key.", "OpenAI"⟩
    else if strContains (strLower msg) "rate" || strContains (strLower msg) "limit" then
      ⟨false, "Rate limit exceeded. Please try again later.", "OpenAI"⟩
    else
      ⟨false, "Connection failed: " ++ msg, "OpenAI"⟩

/- ===================== Claims C1 and C2 ===================== -/

/-- Sample concrete values used by witnesses. -/
def sampleToolDef : ToolDef := ⟨"search_web", "Search the web", PyVal.str "schema"⟩

/-- A tool executor model that fails every call. -/
def sampleExec : ExecFn := fun _ _ => ExecOutcome.failure "offline"

/-- Claim C1: for each provider variant, when an exception escapes the tool
loop of `generate_response_with_tools` (tools and executor having been
supplied), the method returns exactly the result of the plain
`generate_response(prompt, context)` call — the loop failure never reaches
the caller as a hard error. -/
theorem toolLoop_exception_falls_back_to_plain :
    (∀ (envPlain : String → ClaudeGenOutcome) (envTool : ClaudeToolEnv)
       (ex : ExecFn) (fuel : Nat) (prompt : String) (context : Option String)
       (ts : List ToolDef) (e : Err),
      ts ≠ [] →
      claudeToolTry envTool ex fuel prompt context ts = some (.error e) →
      claudeGenerateResponseWithTools envPlain envTool fuel prompt context (some ts) (some ex)
        = some (claudeGenerateResponse envPlain prompt context)) ∧
    (∀ (envPlain : List OMsg → OAIGenOutcome) (envTool : OAIToolEnv)
       (jsonLoads : String → Except Err ToolInput) (ex : ExecFn) (fuel : Nat)
       (prompt : String) (context : Option String) (ts : List ToolDef) (e : Err),
      ts ≠ [] →
      openaiToolTry envTool jsonLoads ex fuel prompt context ts = some (.error e) →
      openaiGenerateResponseWithTools envPlain envTool jsonLoads fuel prompt context
          (some ts) (some ex)
        = some (openaiGenerateResponse envPlain prompt context)) ∧
    (∀ (envPlain : OllamaGenRequest → OllamaGenOutcome) (envTool : OllamaChatEnv)
       (ex : ExecFn) (fuel : Nat) (model prompt : String) (context : Option String)
       (ts : List ToolDef) (e : Err),
      ts ≠ [] →
      ollamaToolTry envTool ex fuel model prompt context ts = some (.error e) →
      ollamaGenerateResponseWithTools envPlain envTool fuel model prompt context
          (some ts) (some ex)
        = some (ollamaGenerateResponse envPlain model prompt context)) := by
  refine ⟨?_, ?_, ?_⟩
  · intro envPlain envTool ex fuel prompt context ts e hts htry
    cases ts with
    | nil => exact absurd rfl hts
    | cons t ts' =>
      simp only [claudeGenerateResponseWithTools, pyTruthyTools, Option.getD_some, htry]
  · intro envPlain envTool jsonLoads ex fuel prompt context ts e hts htry
    cases ts with
    | nil => exact absurd rfl hts
    | cons t ts' =>
      simp only [openaiGenerateResponseWithTools, pyTruthyTools, Option.getD_some, htry]
  · intro envPlain envTool ex fuel model prompt context ts e hts htry
    cases ts with
    | nil => exact absurd rfl hts
    | cons t ts' =>
      simp only [ollamaGenerateResponseWithTools, pyTruthyTools, Option.getD_some, htry]

theorem toolLoop_exception_falls_back_to_plain_witness :
    ([sampleToolDef] ≠ ([] : List ToolDef) ∧
      claudeToolTry (fun _ => .error "boom") sampleExec 3 "p" (some "c") [sampleToolDef]
        = some (.error "boom") ∧
      claudeGenerateResponseWithTools (fun _ => .ok "plain") (fun _ => .error "boom") 3 "p"
          (some "c") (some [sampleToolDef]) (some sampleExec)
        = some (claudeGenerateResponse (fun _ => .ok "plain") "p" (some "c"))) ∧
    (openaiToolTry (fun _ => .error "boom") (fun _ => .ok []) sampleExec 3 "p" (some "c")
        [sampleToolDef] = some (.error "boom") ∧
      openaiGenerateResponseWithTools (fun _ => .ok (some "plain")) (fun _ => .error "boom")
          (fun _ => .ok []) 3 "p" (some "c") (some [sampleToolDef]) (some sampleExec)
        = some (openaiGenerateResponse (fun _ => .ok (some "plain")) "p" (some "c"))) ∧
    (ollamaToolTry (fun _ => .error "boom") sampleExec 3 "m" "p" (some "c") [sampleToolDef]
        = some (.error "boom") ∧
      ollamaGenerateResponseWithTools (fun _ => .ok (some "plain")) (fun _ => .error "boom")
          3 "m" "p" (some "c") (some [sampleToolDef]) (some sampleExec)
        = some (ollamaGenerateResponse (fun _ => .ok (some "plain")) "m" "p" (some "c"))) :=
  ⟨⟨List.cons_ne_nil _ _, rfl,
      toolLoop_exception_falls_back_to_plain.1 _ _ _ 3 "p" (some "c") [sampleToolDef]
        "boom" (List.cons_ne_nil _ _) rfl⟩,
    ⟨rfl,
      toolLoop_exception_falls_back_to_plain.2.1 _ _ _ _ 3 "p" (some "c") [sampleToolDef]
        "boom" (List.cons_ne_nil _ _) rfl⟩,
    ⟨rfl,
      toolLoop_exception_falls_back_to_plain.2.2 _ _ _ 3 "m" "p" (some "c") [sampleToolDef]
        "boom" (List.cons_ne_nil _ _) rfl⟩⟩

/-- Claim C2: for each provider variant, `generate_response_with_tools` with
`tools=None` or `tool_executor=None` returns exactly the result of
`generate_response` on the same prompt and context. -/
theorem withTools_none_equals_generateResponse :
    (∀ (envPlain : String → ClaudeGenOutcome) (envTool : ClaudeToolEnv) (fuel : Nat)
       (prompt : String) (context : Option String) (tools : Option (List ToolDef))
       (toolExecutor : Option ExecFn),
      tools = none ∨ toolExecutor = none →
      claudeGenerateResponseWithTools envPlain envTool fuel prompt context tools toolExecutor
        = some (claudeGenerateResponse envPlain prompt context)) ∧
    (∀ (envPlain : List OMsg → OAIGenOutcome) (envTool : OAIToolEnv)
       (jsonLoads : String → Except Err ToolInput) (fuel : Nat) (prompt : String)
       (context : Option String) (tools : Option (List ToolDef))
       (toolExecutor : Option ExecFn),
      tools = none ∨ toolExecutor = none →
      openaiGenerateResponseWithTools envPlain envTool jsonLoads fuel prompt context tools
          toolExecutor
        = some (openaiGenerateResponse envPlain prompt context)) ∧
    (∀ (envPlain : OllamaGenRequest → OllamaGenOutcome) (envTool : OllamaChatEnv)
       (fuel : Nat) (model prompt : String) (context : Option String)
       (tools : Option (List ToolDef)) (toolExecutor : Option ExecFn),
      tools = none ∨ toolExecutor = none →
      ollamaGenerateResponseWithTools envPlain envTool fuel model prompt context tools
          toolExecutor
        = some (ollamaGenerateResponse envPlain model prompt context)) := by
  refine ⟨?_, ?_, ?_⟩
  · intro envPlain envTool fuel prompt context tools toolExecutor h
    rcases h with h | h
    · subst h; rfl
    · subst h
      cases tools with
      | none => rfl
      | some ts => cases ts <;> rfl
  · intro envPlain envTool jsonLoads fuel prompt context tools toolExecutor h
    rcases h with h | h
    · subst h; rfl
    · subst h
      cases tools with
      | none => rfl
      | some ts => cases ts <;> rfl
  · intro envPlain envTool fuel model prompt context tools toolExecutor h
    rcases h with h | h
    · subst h; rfl
    · subst h
      cases tools with
      | none => rfl
      | some ts => cases ts <;> rfl

theorem withTools_none_equals_generateResponse_witness :
    ((none : Option (List ToolDef)) = none ∨ (some sampleExec : Option ExecFn) = none) ∧
    claudeGenerateResponseWithTools (fun _ => .ok "plain") (fun _ => .error "boom") 3 "p"
        (some "c") none (some sampleExec)
      = some (claudeGenerateResponse (fun _ => .ok "plain") "p" (some "c")) ∧
    openaiGenerateResponseWithTools (fun _ => .ok (some "plain")) (fun _ => .error "boom")
        (fun _ => .ok []) 3 "p" (some "c") none (some sampleExec)
      = some (openaiGenerateResponse (fun _ => .ok (some "plain")) "p" (some "c")) ∧
    ollamaGenerateResponseWithTools (fun _ => .ok (some "plain")) (fun _ => .error "boom")
        3 "m" "p" (some "c") none (some sampleExec)
      = some (ollamaGenerateResponse (fun _ => .ok (some "plain")) "m" "p" (some "c")) :=
  ⟨Or.inl rfl,
    withTools_none_equals_generateResponse.1 _ _ 3 "p" (some "c") none (some sampleExec)
      (Or.inl rfl),
    withTools_none_equals_generateResponse.2.1 _ _ _ 3 "p" (some "c") none (some sampleExec)
      (Or.inl rfl),
    withTools_none_equals_generateResponse.2.2 _ _ 3 "m" "p" (some "c") none
      (some sampleExec) (Or.inl rfl)⟩

/- ===================== Claim C4 ===================== -/

/-- Whether a probe message uses API-key/credential wording: it mentions a
key, a credential, or authentication (case-insensitively). -/
def mentionsCredentials (s : String) : Bool :=
  strContains (strLower s) "api key" || strContains (strLower s) "api_key" ||
    strContains (strLower s) "credential" || strContains (strLower s) "auth" ||
    strContains (strLower s) "key"

/-- Counterexample to claim C4: an Ollama server answering the probe with an
HTTP 401 — the authentication failure this vendor can signal — yields
`success = false`, but the message reports only the status code and contains
no API-key/credential wording. -/
theorem ollama_auth_failure_lacks_credential_wording :
    ollamaTestConnection "http://localhost:11434" "llama3.2" (.status 401)
      = ⟨false, "Server returned status code 401", "Ollama"⟩ ∧
    mentionsCredentials "Server returned status code 401" = false := by
  constructor
  · rfl
  · decide

/-- Claim C4 as amended: every `test_connection` is a total function into a
probe (it never raises). On an authentication failure Claude and OpenAI
return `success = false` with credential wording; Ollama returns
`success = false` on any non-200 status (including a 401 authentication
failure), but its message names only the status code. -/
theorem testConnection_probe_and_auth_classification :
    ((claudeTestConnection .authError).success = false ∧
      mentionsCredentials (claudeTestConnection .authError).message = true) ∧
    (∀ msg : String, strContains (strLower msg) "authentication" = true →
      (openaiTestConnection (.exn msg)).success = false ∧
        mentionsCredentials (openaiTestConnection (.exn msg)).message = true) ∧
    (∀ (url model : String) (code : Nat), code ≠ 200 →
      (ollamaTestConnection url model (.status code)).success = false) ∧
    (∀ o, (claudeTestConnection o).provider = "Claude") ∧
    (∀ o, (openaiTestConnection o).provider = "OpenAI") ∧
    (∀ url model o, (ollamaTestConnection url model o).provider = "Ollama") := by
  refine ⟨⟨rfl, by decide⟩, ?_, ?_, ?_, ?_, ?_⟩
  · intro msg h
    have heq : openaiTestConnection (.exn msg)
        = ⟨false, "Invalid API key. Please check your OpenAI API key.", "OpenAI"⟩ := by
      simp [openaiTestConnection, h]
    rw [heq]
    exact ⟨rfl, by decide⟩
  · intro url model code hcode
    simp only [ollamaTestConnection, hcode, if_false]
    split <;> rfl
  · intro o; cases o <;> rfl
  · intro o
    cases o with
    | ok content => rfl
    | exn m =>
      simp only [openaiTestConnection]
      split
      · rfl
      · split <;> rfl
  · intro url model o
    cases o with
    | status code =>
      simp only [ollamaTestConnection]
      split
      · rfl
      · split <;> rfl
    | connError => rfl
    | timeout => rfl
    | otherExn m => rfl

theorem testConnection_probe_and_auth_classification_witness :
    (strContains (strLower "Incorrect authentication token") "authentication" = true ∧
      (openaiTestConnection (.exn "Incorrect authentication token")).success = false) ∧
    ((401 : Nat) ≠ 200 ∧
      (ollamaTestConnection "http://localhost:11434" "llama3.2" (.status 401)).success
        = false) :=
  ⟨⟨by decide,
      (testConnection_probe_and_auth_classification.2.1 "Incorrect authentication token"
        (by decide)).1⟩,
    ⟨by decide,
      testConnection_probe_and_auth_classification.2.2.1 "http://localhost:11434"
        "llama3.2" 401 (by decide)⟩⟩

/- ===================== Claim C5 ===================== -/

/-- Counterexample to claim C5: for prompt `"p"` and context `"c"`, the body
`OllamaProvider.generate_response` posts to `/api/generate` carries the
context concatenated into its `prompt` field (`"c\n\np"`, the same
convention as Claude's full prompt), not the bare user message — the
`/api/generate` body has `model`/`prompt`/`stream` fields only and no
system-role message at all. -/
theorem ollama_generate_concatenates_context :
    (ollamaGenerateRequest "llama3.2" "p" (some "c")).prompt = "c\n\np" ∧
    (ollamaGenerateRequest "llama3.2" "p" (some "c")).prompt ≠ "p" ∧
    (ollamaGenerateRequest "llama3.2" "p" (some "c")).prompt
      = claudeFullPrompt "p" (some "c") := by
  refine ⟨rfl, ?_, rfl⟩
  decide

/-- Claim C5 as amended: with a truthy context, the Claude provider and the
Ollama provider both concatenate the context into the prompt text of their
plain generation request, while the OpenAI provider passes it as a dedicated
system-role message (Ollama uses a system-role message only in its
tool-calling path). -/
theorem generateResponse_context_placement :
    ∀ (prompt c model : String), c.isEmpty = false →
      claudeFullPrompt prompt (some c) = c ++ "\n\n" ++ prompt ∧
      openaiMessages prompt (some c) = [OMsg.system c, OMsg.user prompt] ∧
      (ollamaGenerateRequest model prompt (some c)).prompt = c ++ "\n\n" ++ prompt ∧
      ollamaChatMessages prompt (some c) = [OllamaMsg.system c, OllamaMsg.user prompt] := by
  intro prompt c model h
  refine ⟨?_, ?_, ?_, ?_⟩
  · simp [claudeFullPrompt, pyTruthyCtx, h]
  · simp [openaiMessages, pyTruthyCtx, h]
  · simp [ollamaGenerateRequest, claudeFullPrompt, pyTruthyCtx, h]
  · simp [ollamaChatMessages, pyTruthyCtx, h]

theorem generateResponse_context_placement_witness :
    ("c" : String).isEmpty = false ∧
    claudeFullPrompt "p" (some "c") = "c" ++ "\n\n" ++ "p" ∧
    openaiMessages "p" (some "c") = [OMsg.system "c", OMsg.user "p"] ∧
    (ollamaGenerateRequest "llama3.2" "p" (some "c")).prompt = "c" ++ "\n\n" ++ "p" := by
  have H := generateResponse_context_placement "p" "c" "llama3.2" (by decide)
  exact ⟨by decide, H.1, H.2.1, H.2.2.1⟩

/- ===================== Claim C6 ===================== -/

/-- Whether any content block carries a `text` attribute. -/
def hasTextBlock : List CBlock → Bool
  | [] => false
  | .textBlock _ :: _ => true
  | .toolUse _ _ _ :: rest => hasTextBlock rest

lemma claudeFinalText_of_no_text {bs : List CBlock} (h : hasTextBlock bs = false) :
    claudeFinalText bs = "No response generated" := by
  induction bs with
  | nil => rfl
  | cons b rest ih =>
    cases b with
    | textBlock s => simp [hasTextBlock] at h
    | toolUse n i id => exact ih (by simpa [hasTextBlock] using h)

/-- Counterexample to claim C6: an Ollama final response whose `message` has
no `content` field makes `generate_response_with_tools` return the empty
string (the `.get('content', '')` default), not the fixed
`"No response generated"` placeholder — that placeholder exists only in the
Claude adapter. -/
theorem ollama_missing_content_returns_empty_not_placeholder :
    ollamaGenerateResponseWithTools (fun _ => .ok (some "plain"))
        (fun _ => .ok ⟨some ⟨none, []⟩⟩) 3 "m" "p" (some "c")
        (some [sampleToolDef]) (some sampleExec)
      = some (.ok "") ∧
    ("" : String) ≠ "No response generated" := by
  exact ⟨rfl, by decide⟩

/-- Claim C6 as amended: when the vendor signals that no more tool calls are
requested, each adapter returns its final text as follows — Claude returns
the first text block, falling back to the fixed `"No response generated"`
placeholder when no block has a `text` attribute; OpenAI returns
`choices[0].message.content` unchanged (possibly null, with no placeholder);
Ollama returns the message's `content` field, defaulting to the empty
string when the message or its content is missing. -/
theorem toolLoop_final_text_extraction :
    (∀ (env : ClaudeToolEnv) (ex : ExecFn) (system : String) (tools : List ToolDef)
       (fuel : Nat) (msgs : List CMsg) (resp : ClaudeResp),
      resp.stopReason ≠ "tool_use" →
      claudeToolLoop env ex system tools fuel msgs resp
        = some (.ok (claudeFinalText resp.content)) ∧
      (hasTextBlock resp.content = false → claudeFinalText resp.content
        = "No response generated")) ∧
    (∀ (env : OAIToolEnv) (jsonLoads : String → Except Err ToolInput) (ex : ExecFn)
       (tools : List ToolDef) (fuel : Nat) (msgs : List OMsg) (resp : OAIResp),
      resp.finishReason ≠ "tool_calls" →
      openaiToolLoop env jsonLoads ex tools fuel msgs resp
        = some (.ok resp.message.content)) ∧
    (∀ (env : OllamaChatEnv) (ex : ExecFn) (model : String) (tools : List ToolDef)
       (fuel : Nat) (msgs : List OllamaMsg) (resp : OllamaChatResp),
      (resp.message = none →
        ollamaToolLoop env ex model tools fuel msgs resp = some (.ok "")) ∧
      (∀ m, resp.message = some m → m.toolCalls = [] →
        ollamaToolLoop env ex model tools fuel msgs resp
          = some (.ok (m.content.getD "")))) := by
  refine ⟨?_, ?_, ?_⟩
  · intro env ex system tools fuel msgs resp h
    refine ⟨?_, fun hno => claudeFinalText_of_no_text hno⟩
    rw [claudeToolLoop.eq_def]
    simp [h]
  · intro env jsonLoads ex tools fuel msgs resp h
    rw [openaiToolLoop.eq_def]
    simp [h]
  · intro env ex model tools fuel msgs resp
    constructor
    · intro h
      simp only [ollamaToolLoop.eq_def, h]
    · intro m hm hcalls
      rw [ollamaToolLoop.eq_def]
      simp [hm, hcalls]

theorem toolLoop_final_text_extraction_witness :
    (("end_turn" : String) ≠ "tool_use" ∧
      claudeToolLoop (fun _ => .error "x") sampleExec "s" [] 3 []
          ⟨"end_turn", [CBlock.toolUse "t" [] "id1"]⟩
        = some (.ok (claudeFinalText [CBlock.toolUse "t" [] "id1"])) ∧
      claudeFinalText [CBlock.toolUse "t" [] "id1"] = "No response generated") ∧
    (("stop" : String) ≠ "tool_calls" ∧
      openaiToolLoop (fun _ => .error "x") (fun _ => .ok []) sampleExec [] 3 []
          ⟨"stop", ⟨none, []⟩⟩
        = some (.ok none)) ∧
    ollamaToolLoop (fun _ => .error "x") sampleExec "m" [] 3 [] ⟨some ⟨none, []⟩⟩
      = some (.ok "") := by
  have HC := toolLoop_final_text_extraction.1 (fun _ => .error "x") sampleExec "s" [] 3 []
    ⟨"end_turn", [CBlock.toolUse "t" [] "id1"]⟩ (by decide)
  have HO := toolLoop_final_text_extraction.2.1 (fun _ => .error "x") (fun _ => .ok [])
    sampleExec [] 3 [] ⟨"stop", ⟨none, []⟩⟩ (by decide)
  have HL := (toolLoop_final_text_extraction.2.2 (fun _ => .error "x") sampleExec "m" [] 3 []
    ⟨some ⟨none, []⟩⟩).2 ⟨none, []⟩ rfl rfl
  exact ⟨⟨by decide, HC.1, HC.2 rfl⟩, ⟨by decide, HO⟩, HL⟩

/- ===================== Claim C7: ToolExecutor (web_tools.py) ===================== -/

/-- The bound search implementation (`self.search_impl`): each capability may
raise (`ToolExecutionError` or anything else), modelled as `Except`. -/
structure SearchBackend where
  search_web : PyVal → PyVal → Except String PyVal
  get_subscription_pricing : PyVal → PyVal → Except String PyVal
  find_alternatives : PyVal → PyVal → Except String PyVal
  check_price_changes : PyVal → Except String PyVal

/-- Python `tool_input[k]`: a missing key raises `KeyError(k)`, whose
`str()` is the quoted key. -/
def getKey (tool_input : ToolInput) (k : String) : Except String PyVal :=
  match lookupKey k tool_input with
  | some v => .ok v
  | none => .error ("'" ++ k ++ "'")

/-- Python `tool_input.get(k, d)`. -/
def getKeyD (tool_input : ToolInput) (k : String) (d : PyVal) : PyVal :=
  (lookupKey k tool_input).getD d

/-- The body of the `try:` block of `ToolExecutor.execute_tool`: dispatch on
the fixed set of four tool names, raising on a missing required argument or
an unknown tool. -/
def executeToolRun (b : SearchBackend) (tool_name : String) (tool_input : ToolInput) :
    Except String PyVal :=
  if tool_name = "search_web" then
    match getKey tool_input "query" with
    | .error e => .error e
    | .ok q => b.search_web q (getKeyD tool_input "max_results" (.int 5))
  else if tool_name = "get_subscription_pricing" then
    match getKey tool_input "service_name" with
    | .error e => .error e
    | .ok s => b.get_subscription_pricing s (getKeyD tool_input "region" (.str "US"))
  else if tool_name = "find_alternatives" then
    match getKey tool_input "service_name", getKey tool_input "category" with
    | .error e, _ => .error e
    | .ok _, .error e => .error e
    | .ok s, .ok c => b.find_alternatives s c
  else if tool_name = "check_price_changes" then
    match getKey tool_input "service_name" with
    | .error e => .error e
    | .ok s => b.check_price_changes s
  else
    .error ("Unknown tool: " ++ tool_name)

/-- `ToolExecutor.execute_tool`: both outcomes are returned as a dict with
uniform `execution_time_ms` and `tool_name` keys; nothing escapes the
catch-all `except`. `elapsedMs` is the measured wall-clock duration. -/
def execute_tool (b : SearchBackend) (elapsedMs : Int) (tool_name : String)
    (tool_input : ToolInput) : List (String × PyVal) :=
  match executeToolRun b tool_name tool_input with
  | .ok r =>
    [("success", .bool true), ("result", r),
      ("execution_time_ms", .int elapsedMs), ("tool_name", .str tool_name)]
  | .error e =>
    [("success", .bool false), ("error", .str e),
      ("execution_time_ms", .int elapsedMs), ("tool_name", .str tool_name)]

/-- Claim C7: `execute_tool` always returns a dict carrying
`execution_time_ms` and `tool_name`, on success and failure alike; and an
unknown tool name produces a failed result (`success = false`) whose error
names the unknown tool, instead of an exception escaping to the caller. -/
theorem execute_tool_uniform_shape_and_unknown_tool :
    ∀ (b : SearchBackend) (elapsedMs : Int) (tool_name : String)
      (tool_input : ToolInput),
      lookupKey "execution_time_ms" (execute_tool b elapsedMs tool_name tool_input)
        = some (.int elapsedMs) ∧
      lookupKey "tool_name" (execute_tool b elapsedMs tool_name tool_input)
        = some (.str tool_name) ∧
      (tool_name ∉ (["search_web", "get_subscription_pricing", "find_alternatives",
          "check_price_changes"] : List String) →
        lookupKey "success" (execute_tool b elapsedMs tool_name tool_input)
          = some (.bool false) ∧
        lookupKey "error" (execute_tool b elapsedMs tool_name tool_input)
          = some (.str ("Unknown tool: " ++ tool_name))) := by
  intro b elapsedMs tool_name tool_input
  refine ⟨?_, ?_, ?_⟩
  · cases h : executeToolRun b tool_name tool_input <;> simp [execute_tool, h, lookupKey]
  · cases h : executeToolRun b tool_name tool_input <;> simp [execute_tool, h, lookupKey]
  · intro hname
    simp only [List.mem_cons, List.not_mem_nil, or_false, not_or] at hname
    obtain ⟨h1, h2, h3, h4⟩ := hname
    have hrun : executeToolRun b tool_name tool_input
        = .error ("Unknown tool: " ++ tool_name) := by
      simp [executeToolRun, h1, h2, h3, h4]
    simp [execute_tool, hrun, lookupKey]

theorem execute_tool_uniform_shape_and_unknown_tool_witness :
    ("frobnicate" : String) ∉ (["search_web", "get_subscription_pricing",
        "find_alternatives", "check_price_changes"] : List String) ∧
    (∀ b : SearchBackend,
      lookupKey "execution_time_ms" (execute_tool b 7 "frobnicate" []) = some (.int 7) ∧
      lookupKey "tool_name" (execute_tool b 7 "frobnicate" []) = some (.str "frobnicate") ∧
      lookupKey "success" (execute_tool b 7 "frobnicate" []) = some (.bool false) ∧
      lookupKey "error" (execute_tool b 7 "frobnicate" [])
        = some (.str ("Unknown tool: " ++ "frobnicate"))) := by
  constructor
  · decide
  · intro b
    have H := execute_tool_uniform_shape_and_unknown_tool b 7 "frobnicate" []
    have H3 := H.2.2 (by decide)
    exact ⟨H.1, H.2.1, H3.1, H3.2⟩

/- ===================== Claim C8: find_alternatives parsing (ai_services.py) ===================== -/

/-- Index search helper: the position of the first occurrence of `c`. -/
def pyFindAux (c : Char) : List Char → Nat → Option Nat
  | [], _ => none
  | x :: xs, i => if x = c then some i else pyFindAux c xs (i + 1)

/-- Python `s.find(c)`: first index of `c`, or `-1`. -/
def pyFind (s : String) (c : Char) : Int :=
  match pyFindAux c s.toList 0 with
  | some i => (i : Int)
  | none => -1

/-- Python `s.rfind(c)`: last index of `c`, or `-1`. -/
def pyRFind (s : String) (c : Char) : Int :=
  match pyFindAux c s.toList.reverse 0 with
  | some i => (s.toList.length : Int) - 1 - (i : Int)
  | none => -1

/-- Python `s[a:b]` for `0 ≤ a ≤ b`. -/
def pySlice (s : String) (a b : Int) : String :=
  String.mk ((s.toList.drop a.toNat).take (b - a).toNat)

/-- The payload `find_alternatives` in ai_services.py returns to its caller:
the alternatives value, the source tag and the HTTP-style status. -/
structure FindAltResult where
  alternatives : PyVal
  source : String
  status : Nat

/-- The single synthesized fallback item wrapping a raw model response. -/
def altFallbackItem (response differences : String) : PyVal :=
  PyVal.list [PyVal.dict [("name", .str "AI Suggestions"),
    ("description", .str response), ("price", .str "Varies"),
    ("differences", .str differences)]]

/-- The response-parsing tail of `find_alternatives` (ai_services.py lines
282-314): scan for the first `[` and last `]`, attempt `json.loads` on the
slice, and degrade to a single synthesized item on a missing array or a
`JSONDecodeError`. `jsonLoads` abstracts Python's JSON parser. -/
def parseAlternativesResponse (jsonLoads : String → Except Unit PyVal)
    (response : String) : FindAltResult :=
  let jsonStart := pyFind response '['
  let jsonEnd := pyRFind response ']' + 1
  if jsonStart ≠ -1 ∧ jsonEnd > jsonStart then
    match jsonLoads (pySlice response jsonStart jsonEnd) with
    | .ok alts => ⟨alts, "ai", 200⟩
    | .error _ => ⟨altFallbackItem response "See AI response for alternatives", "ai", 200⟩
  else
    ⟨altFallbackItem response "See description for details", "ai", 200⟩

lemma pyFindAux_of_not_mem {c : Char} {l : List Char} (h : c ∉ l) :
    ∀ i, pyFindAux c l i = none := by
  induction l with
  | nil => intro i; rfl
  | cons x xs ih =>
    intro i
    have hx : ¬ x = c := fun hxc => h (hxc ▸ List.mem_cons_self x xs)
    simp only [pyFindAux, hx, if_false]
    exact ih (fun hc => h (List.mem_cons_of_mem x hc)) (i + 1)

lemma pyFind_of_not_mem {c : Char} {s : String} (h : c ∉ s.toList) :
    pyFind s c = -1 := by
  unfold pyFind
  rw [pyFindAux_of_not_mem h 0]

/-- Claim C8: when the model's final answer contains no `[` at all (plain
prose with no bracketed JSON array), `find_alternatives` succeeds with
status 200 and a single synthesized alternative whose description wraps the
raw response text. -/
theorem find_alternatives_wraps_prose :
    ∀ (jsonLoads : String → Except Unit PyVal) (response : String),
      '[' ∉ response.toList →
      parseAlternativesResponse jsonLoads response
        = ⟨altFallbackItem response "See description for details", "ai", 200⟩ := by
  intro jsonLoads response h
  have hfind : pyFind response '[' = -1 := pyFind_of_not_mem h
  simp [parseAlternativesResponse, hfind]

theorem find_alternatives_wraps_prose_witness :
    '[' ∉ ("I could not find concrete alternatives, sorry." : String).toList ∧
    parseAlternativesResponse (fun _ => .error ())
        "I could not find concrete alternatives, sorry."
      = ⟨altFallbackItem "I could not find concrete alternatives, sorry."
          "See description for details", "ai", 200⟩ :=
  ⟨by decide,
    find_alternatives_wraps_prose (fun _ => .error ())
      "I could not find concrete alternatives, sorry." (by decide)⟩

/- ===================== Claim C9: chat_with_ai (ai_services.py) ===================== -/

/-- One entry of the optional `conversation_history` list: a dict whose
`role` and `content` keys may each be absent (`msg.get(...)`). -/
structure ChatMsg where
  role : Option String
  content : Option String

/-- The system context built by `chat_with_ai` when the tool path is
active. -/
def chatToolSystemContext (subsContext : String) : String :=
  "You are a helpful subscription management assistant with access to real-time web search.\n\n"
    ++ subsContext
    ++ "\n\nYou can use the available tools to search for current pricing, alternatives, and price changes. Answer the user's questions about their subscriptions, help them optimize costs, suggest alternatives, and provide insights. Be concise, friendly, and helpful."

/-- The system context built by `chat_with_ai` in the non-tool path. -/
def chatPlainSystemContext (subsContext : String) : String :=
  "You are a helpful subscription management assistant.\n\n"
    ++ subsContext
    ++ "\n\nAnswer the user's questions about their subscriptions, help them optimize costs, suggest alternatives, and provide insights. Be concise, friendly, and helpful."

/-- Rendering of history lines: `f"{role.capitalize()}: {content}\n"` with
Python `.get` defaults. -/
def renderHistory : List ChatMsg → String
  | [] => ""
  | m :: rest =>
    pyCapitalize (m.role.getD "user") ++ ": " ++ m.content.getD "" ++ "\n"
      ++ renderHistory rest

/-- The `full_prompt` built by `chat_with_ai` (used only in the non-tool
path); `if conversation_history:` is falsy for `None` and for `[]`. -/
def chatFullPrompt (systemContext message : String)
    (history : Option (List ChatMsg)) : String :=
  match history with
  | some h =>
    if h.isEmpty then systemContext ++ "\n\nUser: " ++ message ++ "\nAssistant:"
    else systemContext ++ "\n\nConversation history:\n" ++ renderHistory (pyLastN 10 h)
      ++ "\nUser: " ++ message ++ "\nAssistant:"
  | none => systemContext ++ "\n\nUser: " ++ message ++ "\nAssistant:"

/-- Which provider call `chat_with_ai` makes, and with which arguments. -/
inductive ChatProviderCall where
  | withTools (prompt : String) (context : String)
  | plain (prompt : String)

/-- The provider call made by `chat_with_ai`, as a function of the
tool-usage decision (`should_use_tools(settings)`), the provider capability
flag, the user's subscription context, the message, and the optional
conversation history. -/
def chatWithAiProviderCall (useTools supportsToolCalling : Bool)
    (subsContext message : String) (history : Option (List ChatMsg)) :
    ChatProviderCall :=
  let systemContext :=
    if useTools && supportsToolCalling then chatToolSystemContext subsContext
    else chatPlainSystemContext subsContext
  let fullPrompt := chatFullPrompt systemContext message history
  if useTools && supportsToolCalling then
    ChatProviderCall.withTools message systemContext
  else
    ChatProviderCall.plain fullPrompt

/-- Claim C9: when tool use is enabled and the provider supports tool
calling, `chat_with_ai` calls the provider with the bare user message as
prompt and the system context alone — the conversation history does not
influence the call (it is folded into the prompt only in the non-tool
path). -/
theorem chat_tool_path_ignores_history :
    ∀ (subsContext message : String) (history : Option (List ChatMsg)),
      chatWithAiProviderCall true true subsContext message history
        = ChatProviderCall.withTools message (chatToolSystemContext subsContext) := by
  intro subsContext message history
  rfl

/- ===================== Claim C10: empty-portfolio placeholders (ai_services.py) ===================== -/

/-- An insight item of `get_spending_analysis`. -/
structure Insight where
  title : String
  description : String

/-- Route taken by `get_spending_analysis` after fetching the context: the
placeholder early return happens before any provider is constructed. -/
inductive SpendingAnalysisStep where
  | placeholder (insights : List Insight) (status : Nat)
  | providerPath

/-- Python truthiness of the context string (`if not context`). -/
def pyTruthyStr (s : String) : Bool := !s.isEmpty

/-- The early-return decision of `get_spending_analysis` (ai_services.py
lines 342-349): empty context or a context reporting zero active
subscriptions short-circuits to a fixed payload with status 200. -/
def spendingAnalysisRoute (context : String) : SpendingAnalysisStep :=
  if !pyTruthyStr context || strContains context "Total Active Subscriptions: 0" then
    .placeholder [⟨"No Subscriptions Yet",
      "Add some subscriptions to get AI-powered insights on your spending patterns."⟩] 200
  else
    .providerPath

/-- A recommendation item of `get_recommendations`. -/
structure Recommendation where
  title : String
  description : String
  savings : String
  priority : String

/-- Route taken by `get_recommendations` after fetching the context. -/
inductive RecommendationsStep where
  | placeholder (recommendations : List Recommendation) (status : Nat)
  | providerPath

/-- The early-return decision of `get_recommendations` (ai_services.py lines
465-474). -/
def recommendationsRoute (context : String) : RecommendationsStep :=
  if !pyTruthyStr context || strContains context "Total Active Subscriptions: 0" then
    .placeholder [⟨"Start Adding Subscriptions",
      "Add your subscriptions to get personalized AI recommendations for optimizing your spending.",
      "N/A", "low"⟩] 200
  else
    .providerPath

/-- Claim C10: an empty subscription context, or one reporting zero active
subscriptions, makes `get_spending_analysis` and `get_recommendations`
return their fixed placeholder payloads with status 200 via the early
return, before any AI provider is constructed or any outbound call is
made. -/
theorem empty_portfolio_placeholders :
    ∀ context : String,
      (context = "" ∨ strContains context "Total Active Subscriptions: 0" = true) →
      spendingAnalysisRoute context
        = .placeholder [⟨"No Subscriptions Yet",
            "Add some subscriptions to get AI-powered insights on your spending patterns."⟩]
            200 ∧
      recommendationsRoute context
        = .placeholder [⟨"Start Adding Subscriptions",
            "Add your subscriptions to get personalized AI recommendations for optimizing your spending.",
            "N/A", "low"⟩] 200 := by
  intro context h
  have hcond : (!pyTruthyStr context
      || strContains context "Total Active Subscriptions: 0") = true := by
    rcases h with h | h
    · subst h; rfl
    · simp [h]
  exact ⟨by simp [spendingAnalysisRoute, hcond], by simp [recommendationsRoute, hcond]⟩

theorem empty_portfolio_placeholders_witness :
    (("" : String) = "" ∨
      strContains "" "Total Active Subscriptions: 0" = true) ∧
    spendingAnalysisRoute ""
      = .placeholder [⟨"No Subscriptions Yet",
          "Add some subscriptions to get AI-powered insights on your spending patterns."⟩]
          200 ∧
    recommendationsRoute ""
      = .placeholder [⟨"Start Adding Subscriptions",
          "Add your subscriptions to get personalized AI recommendations for optimizing your spending.",
          "N/A", "low"⟩] 200 := by
  have H := empty_portfolio_placeholders "" (Or.inl rfl)
  exact ⟨Or.inl rfl, H.1, H.2⟩

end SubTracker
